import Mathlib

/-!
Verification development for the authentication flow engine of a Twitter
scraper client (`src/auth-user.ts`).

The embedding is shallow: the JSON payloads handled by the Secret Redactor
are modelled by an inductive `JsVal` type, objects being association lists
of fields in insertion order (a JavaScript object cannot hold two fields
with the same name, so the well-formedness predicates below require
distinct keys wherever the code rewrites a field).  Stateful loops
(the rate-limit retry of `executeFlowTask`, the two-factor retry loop, the
login orchestrator) are modelled as pure functions over scripted transport
outcomes that also return an explicit event trace, so that counting sends,
cookie-jar updates and rate-limit-strategy invocations becomes a statement
about the trace.
-/

set_option autoImplicit false

/-- JSON values, as produced by `JSON.parse`: `undefined` cannot occur in a
parsed document, so absence of a field is represented by the field not
being in the association list. -/
inductive JsVal where
  | null : JsVal
  | bool (b : Bool) : JsVal
  | num (n : Int) : JsVal
  | str (s : String) : JsVal
  | arr (elems : List JsVal) : JsVal
  | obj (fields : List (String × JsVal)) : JsVal

/-- Property lookup `o.k` on an object given as a field list: first match
(JavaScript objects cannot contain a key twice). `none` plays the role of
`undefined`. -/
def jsLookup : List (String × JsVal) → String → Option JsVal
  | [], _ => none
  | (k', v) :: rest, k => if k' = k then some v else jsLookup rest k

/-- Replacement of the value of an existing field, as done by
`{ ...o, k: v }` when `k` is already a field of `o` (the field keeps its
position, later fields are unchanged). -/
def jsSet : List (String × JsVal) → String → JsVal → List (String × JsVal)
  | [], _, _ => []
  | (k', v') :: rest, k, v =>
    if k' = k then (k', v) :: rest else (k', v') :: jsSet rest k v

/-- JavaScript truthiness of a JSON value (`NaN` cannot come out of
`JSON.parse`, and the model has no floats). -/
def jsTruthy : JsVal → Bool
  | .null => false
  | .bool b => b
  | .num n => n != 0
  | .str s => s != ""
  | .arr _ => true
  | .obj _ => true

/-- Truth of `v == null` (loose equality): only `null` and `undefined`
compare loosely equal to `null`; absence (`undefined`) is handled by the
callers pattern-matching on `Option`. -/
def jsIsNull : JsVal → Bool
  | .null => true
  | _ => false

/-- Own enumerable properties of `{ ...v }`: an object contributes its
fields, an array its elements under their stringified indices, a string
its characters under their indices, and any other primitive nothing. -/
def spreadFields : JsVal → List (String × JsVal)
  | .obj fs => fs
  | .arr xs => xs.enum.map (fun p => (toString p.1, p.2))
  | .str s => s.toList.enum.map (fun p => (toString p.1, JsVal.str p.2.toString))
  | _ => []

/-- Presence of a key among the fields of an object. -/
def keyMem (k : String) : List (String × JsVal) → Bool
  | [] => false
  | (k', _) :: rest => k' == k || keyMem k rest

/-- All field names distinct, as is the case for every JavaScript object. -/
def distinctKeys : List (String × JsVal) → Bool
  | [] => true
  | (k, _) :: rest => !keyMem k rest && distinctKeys rest

/-- One entry of `subtask_inputs`, given as the field list of its JSON
object (the `subtask_id` field is one of the fields). -/
abbrev SubtaskInputFields := List (String × JsVal)

/-- The `TwitterUserAuthFlowRequest` tagged union of `auth-user.ts`: the
*Init* variant carries `flow_name`, `input_flow_data` and
`subtask_versions`; the *Continuation* variant carries `flow_token` and
`subtask_inputs`. -/
inductive TwitterUserAuthFlowRequest where
  | initRequest (flow_name : String) (input_flow_data : JsVal)
      (subtask_versions : List (String × Int))
  | subtaskRequest (flow_token : String) (subtask_inputs : List SubtaskInputFields)

/-! ### Secret Redactor, source side (`sanitizeFlowRequest`)

`sanitizeFlowRequest` first deep-clones its argument through
`JSON.parse(JSON.stringify(data))`; on JSON-representable data (which is
what `JsVal` models) that round trip is the identity, so the clone is not
modelled separately.  The redaction of one `subtask_inputs` entry is three
sequential field rewrites, in source order: `enter_password.password`,
`enter_text.text`, `settings_list.setting_responses[*]`. -/

/-- The guarded rewrite
`if (sanitized.<outer>?.<field> != null) sanitized.<outer> = { ...sanitized.<outer>, <field>: REDACTED }`
shared by the `enter_password.password` and `enter_text.text` blocks of
`sanitizeFlowRequest`.  Property access on a non-object yields `undefined`,
so the guard only fires when `<outer>` is an object holding a non-null
`<field>`. -/
def redactEntryField (outer field : String) (input : SubtaskInputFields) :
    SubtaskInputFields :=
  match jsLookup input outer with
  | some (JsVal.obj fs) =>
    match jsLookup fs field with
    | some v =>
      if jsIsNull v then input
      else jsSet input outer (JsVal.obj (jsSet fs field (JsVal.str "[REDACTED]")))
    | none => input
  | _ => input

/-- The `enter_password` block of `sanitizeFlowRequest`. -/
def redactPasswordStep (input : SubtaskInputFields) : SubtaskInputFields :=
  redactEntryField "enter_password" "password" input

/-- The `enter_text` block of `sanitizeFlowRequest`. -/
def redactTextStep (input : SubtaskInputFields) : SubtaskInputFields :=
  redactEntryField "enter_text" "text" input

/-- The body of the `setting_responses.map` callback: spreads the response
into a fresh object literal and, when `response_data.text_data.result` is
present and non-null, rewrites it to the placeholder. -/
def sanitizeSettingResponse (r : JsVal) : JsVal :=
  let fs := spreadFields r
  match jsLookup fs "response_data" with
  | some (JsVal.obj rd) =>
    match jsLookup rd "text_data" with
    | some (JsVal.obj td) =>
      match jsLookup td "result" with
      | some v =>
        if jsIsNull v then JsVal.obj fs
        else
          JsVal.obj (jsSet fs "response_data" (JsVal.obj (jsSet rd "text_data"
            (JsVal.obj (jsSet td "result" (JsVal.str "[REDACTED]"))))))
      | none => JsVal.obj fs
    | _ => JsVal.obj fs
  | _ => JsVal.obj fs

/-- The `settings_list` block of `sanitizeFlowRequest`: guarded by the
truthiness of `sanitized.settings_list?.setting_responses`; calling `.map`
on a truthy non-array value raises a `TypeError`, modelled by `none`. -/
def redactSettingsStep (input : SubtaskInputFields) : Option SubtaskInputFields :=
  match jsLookup input "settings_list" with
  | some (JsVal.obj sl) =>
    match jsLookup sl "setting_responses" with
    | some (JsVal.arr rs) =>
      some (jsSet input "settings_list" (JsVal.obj (jsSet sl "setting_responses"
        (JsVal.arr (rs.map sanitizeSettingResponse)))))
    | some v => if jsTruthy v then none else some input
    | none => some input
  | _ => some input

/-- Redaction of one `subtask_inputs` entry: the three blocks in source
order on the successively rewritten object. -/
def sanitizeInput (input : SubtaskInputFields) : Option SubtaskInputFields :=
  redactSettingsStep (redactTextStep (redactPasswordStep input))

/-- The `subtask_inputs.map` over entries, with a raised `TypeError`
propagating out as `none`. -/
def sanitizeInputs : List SubtaskInputFields → Option (List SubtaskInputFields)
  | [] => some []
  | input :: rest =>
    match sanitizeInput input, sanitizeInputs rest with
    | some si, some srest => some (si :: srest)
    | _, _ => none

/-- Method `TwitterUserAuth.sanitizeFlowRequest`: on the Init variant the clone is
returned unchanged (it has no `subtask_inputs` key); on the Continuation
variant every entry of `subtask_inputs` is redacted. -/
def sanitizeFlowRequest : TwitterUserAuthFlowRequest → Option TwitterUserAuthFlowRequest
  | .initRequest n d v => some (.initRequest n d v)
  | .subtaskRequest tok inputs =>
    match sanitizeInputs inputs with
    | some xs => some (.subtaskRequest tok xs)
    | none => none

/-! ### Secret Redactor, claim side

Written from the claim text: the returned copy has the password-entry
field, the free-text field and the settings-list nested text result
replaced by the fixed placeholder, all other structure and field names
preserved exactly. -/

/-- Rewrite of the value of the field named `k`, leaving every other field
(and every field name) untouched. -/
def specStep (k : String) (m : JsVal → JsVal) : List (String × JsVal) → List (String × JsVal)
  | [] => []
  | (k', v) :: rest => (k', if k' = k then m v else v) :: specStep k m rest

/-- Replacement of the field named `k` by the placeholder, when the value
is an object carrying it. -/
def maskFieldSpec (k : String) : JsVal → JsVal
  | JsVal.obj fs => JsVal.obj (specStep k (fun _ => JsVal.str "[REDACTED]") fs)
  | v => v

/-- Replacement of `text_data.result` inside a `response_data` value. -/
def maskTextDataSpec : JsVal → JsVal
  | JsVal.obj rd => JsVal.obj (specStep "text_data" (maskFieldSpec "result") rd)
  | v => v

/-- Replacement of `response_data.text_data.result` inside one setting
response. -/
def maskSettingResponseSpec : JsVal → JsVal
  | JsVal.obj fs => JsVal.obj (specStep "response_data" maskTextDataSpec fs)
  | v => v

/-- Replacement inside every element of a `setting_responses` array. -/
def maskResponsesSpec : JsVal → JsVal
  | JsVal.arr rs => JsVal.arr (rs.map maskSettingResponseSpec)
  | v => v

/-- Replacement of the nested text results of a `settings_list` value. -/
def maskSettingsSpec : JsVal → JsVal
  | JsVal.obj sl => JsVal.obj (specStep "setting_responses" maskResponsesSpec sl)
  | v => v

/-- Claim-side redaction of one `subtask_inputs` entry: mask exactly the
three secret paths, preserve everything else.  The steps touch pairwise
distinct field names, so their order is immaterial; they are composed in
the same order as the source blocks. -/
def redactInputSpec (input : SubtaskInputFields) : SubtaskInputFields :=
  specStep "settings_list" maskSettingsSpec
    (specStep "enter_text" (maskFieldSpec "text")
      (specStep "enter_password" (maskFieldSpec "password") input))

/-- Claim-side redaction of a whole flow request. -/
def redactRequestSpec : TwitterUserAuthFlowRequest → TwitterUserAuthFlowRequest
  | .initRequest n d v => .initRequest n d v
  | .subtaskRequest tok inputs => .subtaskRequest tok (inputs.map redactInputSpec)

/-! ### Well-formed request payloads

The requests reaching `sanitizeFlowRequest` are built by the flow handlers
out of credential strings, so their secret fields, when present, hold
non-null values, their `setting_responses` are arrays of objects, and all
their objects (being JavaScript objects) have distinct field names. -/

/-- Well-formedness of an `enter_password`- or `enter_text`-style entry of
a subtask input. -/
def entryFieldWF (input : SubtaskInputFields) (outer field : String) : Bool :=
  match jsLookup input outer with
  | some (JsVal.obj fs) =>
    distinctKeys fs &&
      (match jsLookup fs field with
       | some v => !jsIsNull v
       | none => true)
  | _ => true

/-- Well-formedness of one element of a `setting_responses` array. -/
def settingResponseWF : JsVal → Bool
  | JsVal.obj fs =>
    distinctKeys fs &&
      (match jsLookup fs "response_data" with
       | some (JsVal.obj rd) =>
         distinctKeys rd &&
           (match jsLookup rd "text_data" with
            | some (JsVal.obj td) =>
              distinctKeys td &&
                (match jsLookup td "result" with
                 | some v => !jsIsNull v
                 | none => true)
            | _ => true)
       | _ => true)
  | _ => false

/-- Well-formedness of the `settings_list` entry of a subtask input. -/
def settingsListWF (input : SubtaskInputFields) : Bool :=
  match jsLookup input "settings_list" with
  | some (JsVal.obj sl) =>
    distinctKeys sl &&
      (match jsLookup sl "setting_responses" with
       | some (JsVal.arr rs) => rs.all settingResponseWF
       | some v => !jsTruthy v
       | none => true)
  | _ => true

/-- Well-formedness of one `subtask_inputs` entry. -/
def inputWF (input : SubtaskInputFields) : Bool :=
  distinctKeys input && entryFieldWF input "enter_password" "password" &&
    entryFieldWF input "enter_text" "text" && settingsListWF input

/-- Well-formedness of a flow request payload. -/
def requestWF : TwitterUserAuthFlowRequest → Bool
  | .initRequest _ _ _ => true
  | .subtaskRequest _ inputs => inputs.all inputWF


/-! ### Association-list lemmas -/

theorem jsLookup_eq_none (fs : List (String × JsVal)) (k : String)
    (h : keyMem k fs = false) : jsLookup fs k = none := by
  induction fs with
  | nil => rfl
  | cons p rest ih =>
    obtain ⟨k', v⟩ := p
    simp only [keyMem, Bool.or_eq_false_iff, beq_eq_false_iff_ne, ne_eq] at h
    simp [jsLookup, h.1, ih h.2]

theorem specStep_of_none (k : String) (m : JsVal → JsVal)
    (fs : List (String × JsVal)) (h : jsLookup fs k = none) :
    specStep k m fs = fs := by
  induction fs with
  | nil => rfl
  | cons p rest ih =>
    obtain ⟨k', v⟩ := p
    by_cases hk : k' = k
    · simp [jsLookup, hk] at h
    · simp only [jsLookup, if_neg hk] at h
      simp [specStep, hk, ih h]

theorem jsSet_self (fs : List (String × JsVal)) (k : String) (v : JsVal)
    (h : jsLookup fs k = some v) : jsSet fs k v = fs := by
  induction fs with
  | nil => rfl
  | cons p rest ih =>
    obtain ⟨k', v'⟩ := p
    by_cases hk : k' = k
    · simp only [jsLookup, if_pos hk, Option.some.injEq] at h
      simp [jsSet, hk, h]
    · simp only [jsLookup, if_neg hk] at h
      simp [jsSet, hk, ih h]

theorem specStep_eq_jsSet (k : String) (m : JsVal → JsVal)
    (fs : List (String × JsVal)) (v : JsVal)
    (hd : distinctKeys fs = true) (h : jsLookup fs k = some v) :
    specStep k m fs = jsSet fs k (m v) := by
  induction fs with
  | nil => simp [jsLookup] at h
  | cons p rest ih =>
    obtain ⟨k', v'⟩ := p
    simp only [distinctKeys, Bool.and_eq_true, Bool.not_eq_true'] at hd
    by_cases hk : k' = k
    · simp only [jsLookup, if_pos hk, Option.some.injEq] at h
      have hrest : jsLookup rest k = none := jsLookup_eq_none rest k (hk ▸ hd.1)
      simp [specStep, jsSet, hk, h, specStep_of_none k m rest hrest]
    · simp only [jsLookup, if_neg hk] at h
      simp [specStep, jsSet, hk, ih hd.2 h]

theorem jsLookup_specStep_ne (k k' : String) (m : JsVal → JsVal)
    (fs : List (String × JsVal)) (h : k' ≠ k) :
    jsLookup (specStep k m fs) k' = jsLookup fs k' := by
  induction fs with
  | nil => rfl
  | cons p rest ih =>
    obtain ⟨k0, v0⟩ := p
    by_cases hk0 : k0 = k'
    · simp [specStep, jsLookup, hk0, h]
    · simp [specStep, jsLookup, hk0, ih]

theorem keyMem_specStep (j k : String) (m : JsVal → JsVal)
    (fs : List (String × JsVal)) :
    keyMem j (specStep k m fs) = keyMem j fs := by
  induction fs with
  | nil => rfl
  | cons p rest ih =>
    obtain ⟨k0, v0⟩ := p
    simp [specStep, keyMem, ih]

theorem distinctKeys_specStep (k : String) (m : JsVal → JsVal)
    (fs : List (String × JsVal)) :
    distinctKeys (specStep k m fs) = distinctKeys fs := by
  induction fs with
  | nil => rfl
  | cons p rest ih =>
    obtain ⟨k0, v0⟩ := p
    simp [specStep, distinctKeys, keyMem_specStep, ih]

/-! ### Equivalence of the source redaction with the claim-side redaction -/

theorem redactEntryField_eq (outer field : String) (input : SubtaskInputFields)
    (hd : distinctKeys input = true) (hwf : entryFieldWF input outer field = true) :
    redactEntryField outer field input = specStep outer (maskFieldSpec field) input := by
  unfold redactEntryField entryFieldWF at *
  cases hov : jsLookup input outer with
  | none => simp [hov, specStep_of_none outer _ input hov]
  | some v =>
    rw [specStep_eq_jsSet outer _ input v hd hov]
    cases v with
    | obj fs =>
      rw [hov] at hwf
      simp only [Bool.and_eq_true] at hwf
      obtain ⟨hdfs, hwf⟩ := hwf
      cases hf : jsLookup fs field with
      | none =>
        simp [hov, hf, maskFieldSpec, specStep_of_none field _ fs hf,
          jsSet_self input outer _ hov]
      | some w =>
        rw [hf] at hwf
        simp only [Bool.not_eq_true'] at hwf
        simp [hov, hf, hwf, maskFieldSpec,
          specStep_eq_jsSet field (fun _ => JsVal.str "[REDACTED]") fs w hdfs hf]
    | null => simp [hov, maskFieldSpec, jsSet_self input outer _ hov]
    | bool b => simp [hov, maskFieldSpec, jsSet_self input outer _ hov]
    | num n => simp [hov, maskFieldSpec, jsSet_self input outer _ hov]
    | str s => simp [hov, maskFieldSpec, jsSet_self input outer _ hov]
    | arr xs => simp [hov, maskFieldSpec, jsSet_self input outer _ hov]

theorem sanitizeSettingResponse_eq (r : JsVal) (hwf : settingResponseWF r = true) :
    sanitizeSettingResponse r = maskSettingResponseSpec r := by
  cases r with
  | obj fs =>
    simp only [settingResponseWF, Bool.and_eq_true] at hwf
    obtain ⟨hdfs, hwf⟩ := hwf
    cases hrd : jsLookup fs "response_data" with
    | none =>
      simp [sanitizeSettingResponse, maskSettingResponseSpec, spreadFields, hrd,
        specStep_of_none "response_data" maskTextDataSpec fs hrd]
    | some rdv =>
      cases rdv with
      | obj rd =>
        rw [hrd] at hwf
        simp only [Bool.and_eq_true] at hwf
        obtain ⟨hdrd, hwf⟩ := hwf
        cases htd : jsLookup rd "text_data" with
        | none =>
          simp [sanitizeSettingResponse, maskSettingResponseSpec, maskTextDataSpec,
            spreadFields, hrd, htd,
            specStep_eq_jsSet "response_data" maskTextDataSpec fs (JsVal.obj rd) hdfs hrd,
            specStep_of_none "text_data" (maskFieldSpec "result") rd htd,
            jsSet_self fs "response_data" (JsVal.obj rd) hrd]
        | some tdv =>
          cases tdv with
          | obj td =>
            rw [htd] at hwf
            simp only [Bool.and_eq_true] at hwf
            obtain ⟨hdtd, hwf⟩ := hwf
            cases hres : jsLookup td "result" with
            | none =>
              simp [sanitizeSettingResponse, maskSettingResponseSpec, maskTextDataSpec,
                maskFieldSpec, spreadFields, hrd, htd, hres,
                specStep_eq_jsSet "response_data" maskTextDataSpec fs (JsVal.obj rd) hdfs hrd,
                specStep_eq_jsSet "text_data" (maskFieldSpec "result") rd (JsVal.obj td) hdrd htd,
                specStep_of_none "result" (fun _ => JsVal.str "[REDACTED]") td hres,
                jsSet_self rd "text_data" (JsVal.obj td) htd,
                jsSet_self fs "response_data" (JsVal.obj rd) hrd]
            | some w =>
              rw [hres] at hwf
              simp only [Bool.not_eq_true'] at hwf
              simp [sanitizeSettingResponse, maskSettingResponseSpec, maskTextDataSpec,
                maskFieldSpec, spreadFields, hrd, htd, hres, hwf,
                specStep_eq_jsSet "response_data" maskTextDataSpec fs (JsVal.obj rd) hdfs hrd,
                specStep_eq_jsSet "text_data" (maskFieldSpec "result") rd (JsVal.obj td) hdrd htd,
                specStep_eq_jsSet "result" (fun _ => JsVal.str "[REDACTED]") td w hdtd hres]
          | null =>
            simp [sanitizeSettingResponse, maskSettingResponseSpec, maskTextDataSpec,
              maskFieldSpec, spreadFields, hrd, htd,
              specStep_eq_jsSet "response_data" maskTextDataSpec fs (JsVal.obj rd) hdfs hrd,
              specStep_eq_jsSet "text_data" (maskFieldSpec "result") rd _ hdrd htd,
              jsSet_self rd "text_data" _ htd,
              jsSet_self fs "response_data" (JsVal.obj rd) hrd]
          | bool b =>
            simp [sanitizeSettingResponse, maskSettingResponseSpec, maskTextDataSpec,
              maskFieldSpec, spreadFields, hrd, htd,
              specStep_eq_jsSet "response_data" maskTextDataSpec fs (JsVal.obj rd) hdfs hrd,
              specStep_eq_jsSet "text_data" (maskFieldSpec "result") rd _ hdrd htd,
              jsSet_self rd "text_data" _ htd,
              jsSet_self fs "response_data" (JsVal.obj rd) hrd]
          | num n =>
            simp [sanitizeSettingResponse, maskSettingResponseSpec, maskTextDataSpec,
              maskFieldSpec, spreadFields, hrd, htd,
              specStep_eq_jsSet "response_data" maskTextDataSpec fs (JsVal.obj rd) hdfs hrd,
              specStep_eq_jsSet "text_data" (maskFieldSpec "result") rd _ hdrd htd,
              jsSet_self rd "text_data" _ htd,
              jsSet_self fs "response_data" (JsVal.obj rd) hrd]
          | str s =>
            simp [sanitizeSettingResponse, maskSettingResponseSpec, maskTextDataSpec,
              maskFieldSpec, spreadFields, hrd, htd,
              specStep_eq_jsSet "response_data" maskTextDataSpec fs (JsVal.obj rd) hdfs hrd,
              specStep_eq_jsSet "text_data" (maskFieldSpec "result") rd _ hdrd htd,
              jsSet_self rd "text_data" _ htd,
              jsSet_self fs "response_data" (JsVal.obj rd) hrd]
          | arr xs =>
            simp [sanitizeSettingResponse, maskSettingResponseSpec, maskTextDataSpec,
              maskFieldSpec, spreadFields, hrd, htd,
              specStep_eq_jsSet "response_data" maskTextDataSpec fs (JsVal.obj rd) hdfs hrd,
              specStep_eq_jsSet "text_data" (maskFieldSpec "result") rd _ hdrd htd,
              jsSet_self rd "text_data" _ htd,
              jsSet_self fs "response_data" (JsVal.obj rd) hrd]
      | null =>
        simp [sanitizeSettingResponse, maskSettingResponseSpec, maskTextDataSpec,
          spreadFields, hrd,
          specStep_eq_jsSet "response_data" maskTextDataSpec fs _ hdfs hrd,
          jsSet_self fs "response_data" _ hrd]
      | bool b =>
        simp [sanitizeSettingResponse, maskSettingResponseSpec, maskTextDataSpec,
          spreadFields, hrd,
          specStep_eq_jsSet "response_data" maskTextDataSpec fs _ hdfs hrd,
          jsSet_self fs "response_data" _ hrd]
      | num n =>
        simp [sanitizeSettingResponse, maskSettingResponseSpec, maskTextDataSpec,
          spreadFields, hrd,
          specStep_eq_jsSet "response_data" maskTextDataSpec fs _ hdfs hrd,
          jsSet_self fs "response_data" _ hrd]
      | str s =>
        simp [sanitizeSettingResponse, maskSettingResponseSpec, maskTextDataSpec,
          spreadFields, hrd,
          specStep_eq_jsSet "response_data" maskTextDataSpec fs _ hdfs hrd,
          jsSet_self fs "response_data" _ hrd]
      | arr xs =>
        simp [sanitizeSettingResponse, maskSettingResponseSpec, maskTextDataSpec,
          spreadFields, hrd,
          specStep_eq_jsSet "response_data" maskTextDataSpec fs _ hdfs hrd,
          jsSet_self fs "response_data" _ hrd]
  | null => simp [settingResponseWF] at hwf
  | bool b => simp [settingResponseWF] at hwf
  | num n => simp [settingResponseWF] at hwf
  | str s => simp [settingResponseWF] at hwf
  | arr xs => simp [settingResponseWF] at hwf

theorem sanitizeSettingResponses_map_eq (rs : List JsVal)
    (h : rs.all settingResponseWF = true) :
    rs.map sanitizeSettingResponse = rs.map maskSettingResponseSpec := by
  induction rs with
  | nil => rfl
  | cons r rest ih =>
    simp only [List.all_cons, Bool.and_eq_true] at h
    simp [sanitizeSettingResponse_eq r h.1, ih h.2]

theorem redactSettingsStep_eq (input : SubtaskInputFields)
    (hd : distinctKeys input = true) (hwf : settingsListWF input = true) :
    redactSettingsStep input = some (specStep "settings_list" maskSettingsSpec input) := by
  unfold redactSettingsStep settingsListWF at *
  cases hsl : jsLookup input "settings_list" with
  | none => simp [hsl, specStep_of_none "settings_list" _ input hsl]
  | some v =>
    rw [specStep_eq_jsSet "settings_list" maskSettingsSpec input v hd hsl]
    cases v with
    | obj sl =>
      rw [hsl] at hwf
      simp only [Bool.and_eq_true] at hwf
      obtain ⟨hdsl, hwf⟩ := hwf
      cases hsr : jsLookup sl "setting_responses" with
      | none =>
        simp [hsl, hsr, maskSettingsSpec,
          specStep_of_none "setting_responses" _ sl hsr,
          jsSet_self input "settings_list" _ hsl]
      | some w =>
        rw [hsr] at hwf
        cases w with
        | arr rs =>
          have hall : rs.all settingResponseWF = true := hwf
          have hmap := sanitizeSettingResponses_map_eq rs hall
          simp [hsl, hsr, maskSettingsSpec, maskResponsesSpec, hmap,
            specStep_eq_jsSet "setting_responses" maskResponsesSpec sl (JsVal.arr rs) hdsl hsr]
        | null =>
          simp only [Bool.not_eq_true'] at hwf
          simp [hsl, hsr, hwf, maskSettingsSpec, maskResponsesSpec,
            specStep_eq_jsSet "setting_responses" maskResponsesSpec sl _ hdsl hsr,
            jsSet_self sl "setting_responses" _ hsr,
            jsSet_self input "settings_list" _ hsl]
        | bool b =>
          simp only [Bool.not_eq_true'] at hwf
          simp [hsl, hsr, hwf, maskSettingsSpec, maskResponsesSpec,
            specStep_eq_jsSet "setting_responses" maskResponsesSpec sl _ hdsl hsr,
            jsSet_self sl "setting_responses" _ hsr,
            jsSet_self input "settings_list" _ hsl]
        | num n =>
          simp only [Bool.not_eq_true'] at hwf
          simp [hsl, hsr, hwf, maskSettingsSpec, maskResponsesSpec,
            specStep_eq_jsSet "setting_responses" maskResponsesSpec sl _ hdsl hsr,
            jsSet_self sl "setting_responses" _ hsr,
            jsSet_self input "settings_list" _ hsl]
        | str s =>
          simp only [Bool.not_eq_true'] at hwf
          simp [hsl, hsr, hwf, maskSettingsSpec, maskResponsesSpec,
            specStep_eq_jsSet "setting_responses" maskResponsesSpec sl _ hdsl hsr,
            jsSet_self sl "setting_responses" _ hsr,
            jsSet_self input "settings_list" _ hsl]
        | obj ofs =>
          simp only [Bool.not_eq_true'] at hwf
          simp [jsTruthy] at hwf
    | null => simp [hsl, maskSettingsSpec, jsSet_self input "settings_list" _ hsl]
    | bool b => simp [hsl, maskSettingsSpec, jsSet_self input "settings_list" _ hsl]
    | num n => simp [hsl, maskSettingsSpec, jsSet_self input "settings_list" _ hsl]
    | str s => simp [hsl, maskSettingsSpec, jsSet_self input "settings_list" _ hsl]
    | arr xs => simp [hsl, maskSettingsSpec, jsSet_self input "settings_list" _ hsl]

theorem entryFieldWF_specStep (k outer field : String) (m : JsVal → JsVal)
    (input : SubtaskInputFields) (h : outer ≠ k) :
    entryFieldWF (specStep k m input) outer field = entryFieldWF input outer field := by
  unfold entryFieldWF
  rw [jsLookup_specStep_ne k outer m input h]

theorem settingsListWF_specStep (k : String) (m : JsVal → JsVal)
    (input : SubtaskInputFields) (h : "settings_list" ≠ k) :
    settingsListWF (specStep k m input) = settingsListWF input := by
  unfold settingsListWF
  rw [jsLookup_specStep_ne k "settings_list" m input h]

theorem sanitizeInput_eq (input : SubtaskInputFields) (hwf : inputWF input = true) :
    sanitizeInput input = some (redactInputSpec input) := by
  unfold inputWF at hwf
  simp only [Bool.and_eq_true] at hwf
  obtain ⟨⟨⟨hd, hpw⟩, htx⟩, hsl⟩ := hwf
  have h1 : redactPasswordStep input
      = specStep "enter_password" (maskFieldSpec "password") input :=
    redactEntryField_eq _ _ input hd hpw
  have hd1 : distinctKeys (specStep "enter_password" (maskFieldSpec "password") input) = true := by
    rw [distinctKeys_specStep]; exact hd
  have htx1 : entryFieldWF (specStep "enter_password" (maskFieldSpec "password") input)
      "enter_text" "text" = true := by
    rw [entryFieldWF_specStep _ _ _ _ input (by decide)]; exact htx
  have h2 : redactTextStep (specStep "enter_password" (maskFieldSpec "password") input)
      = specStep "enter_text" (maskFieldSpec "text")
          (specStep "enter_password" (maskFieldSpec "password") input) :=
    redactEntryField_eq _ _ _ hd1 htx1
  have hd2 : distinctKeys (specStep "enter_text" (maskFieldSpec "text")
      (specStep "enter_password" (maskFieldSpec "password") input)) = true := by
    rw [distinctKeys_specStep]; exact hd1
  have hsl2 : settingsListWF (specStep "enter_text" (maskFieldSpec "text")
      (specStep "enter_password" (maskFieldSpec "password") input)) = true := by
    rw [settingsListWF_specStep _ _ _ (by decide),
      settingsListWF_specStep _ _ input (by decide)]
    exact hsl
  have h3 := redactSettingsStep_eq _ hd2 hsl2
  unfold sanitizeInput redactInputSpec
  rw [h1, h2, h3]

theorem sanitizeInputs_eq (inputs : List SubtaskInputFields)
    (hwf : inputs.all inputWF = true) :
    sanitizeInputs inputs = some (inputs.map redactInputSpec) := by
  induction inputs with
  | nil => rfl
  | cons input rest ih =>
    simp only [List.all_cons, Bool.and_eq_true] at hwf
    simp [sanitizeInputs, sanitizeInput_eq input hwf.1, ih hwf.2]

/-- C1: for every `FlowRequest` passed to the Secret Redactor
(`sanitizeFlowRequest`) whose payload is well formed — its objects are
JavaScript objects (distinct field names), its secret fields are non-null
when present, and its `setting_responses` are arrays of objects, as holds
for every request the flow handlers construct — the returned copy has
in every subtask input the `enter_password.password`, `enter_text.text` and
`settings_list.setting_responses[*].response_data.text_data.result` field
replaced by the fixed placeholder `"[REDACTED]"`, with all other structure
and field names preserved exactly: the result is precisely
`redactRequestSpec`, the claim-side rendering of that transformation.  The
embedding is purely functional, so the input request is left unmutated by
construction. -/
theorem secret_redactor_masks_and_preserves (req : TwitterUserAuthFlowRequest)
    (hwf : requestWF req = true) :
    sanitizeFlowRequest req = some (redactRequestSpec req) := by
  cases req with
  | initRequest n d v => rfl
  | subtaskRequest tok inputs =>
    have hall : inputs.all inputWF = true := hwf
    simp [sanitizeFlowRequest, redactRequestSpec, sanitizeInputs_eq inputs hall]

/-- Concrete flow request exercising all three secret paths of the Secret
Redactor: a password entry, a free-text entry and a settings-list response. -/
def redactorWitnessRequest : TwitterUserAuthFlowRequest :=
  .subtaskRequest "flow-token-1"
    [[("subtask_id", JsVal.str "LoginEnterPassword"),
      ("enter_password", JsVal.obj
        [("password", JsVal.str "hunter2"), ("link", JsVal.str "next_link")])],
     [("subtask_id", JsVal.str "LoginTwoFactorAuthChallenge"),
      ("enter_text", JsVal.obj
        [("link", JsVal.str "next_link"), ("text", JsVal.str "123456")])],
     [("subtask_id", JsVal.str "LoginEnterUserIdentifierSSO"),
      ("settings_list", JsVal.obj
        [("setting_responses", JsVal.arr
          [JsVal.obj [("key", JsVal.str "user_identifier"),
            ("response_data", JsVal.obj
              [("text_data", JsVal.obj [("result", JsVal.str "alice")])])]]),
         ("link", JsVal.str "next_link")])]]

/-- Witness for C1 at a concrete request holding all three kinds of
secret. -/
theorem secret_redactor_masks_and_preserves_witness :
    requestWF redactorWitnessRequest = true ∧
      sanitizeFlowRequest redactorWitnessRequest
        = some (redactRequestSpec redactorWitnessRequest) :=
  ⟨by rfl, secret_redactor_masks_and_preserves redactorWitnessRequest (by rfl)⟩

/-- C9: on every Init-variant flow request (one with `flow_name` and no
`subtask_inputs`), the Secret Redactor returns a structurally identical
copy with nothing masked: `input_flow_data` and `subtask_versions` appear
in the loggable projection exactly as in the original request. -/
theorem secret_redactor_init_identity (flow_name : String)
    (input_flow_data : JsVal) (subtask_versions : List (String × Int)) :
    sanitizeFlowRequest
        (.initRequest flow_name input_flow_data subtask_versions)
      = some (.initRequest flow_name input_flow_data subtask_versions) := rfl

/-! ### Flow responses and the response classification of `executeFlowTask`

The parsed JSON body of a flow round trip.  `flow_token` is typed
`string?` in the TypeScript interface but is runtime-unvalidated parsed
JSON, which is why `executeFlowTask` checks both `== null` and
`typeof !== "string"`; it is therefore modelled as an arbitrary optional
`JsVal`. -/

/-- One entry of the `errors` array of a flow response.  Modelled from the
spec: `TwitterApiErrorRaw` lives in `errors.ts`, which is not part of the
sources; section 3 of the spec describes the entries as pairs of a code
and a message. -/
structure TwitterApiErrorRaw where
  code : Int
  message : String

/-- One queued subtask of a flow response; only its `subtask_id` is ever
read (the typebox `Check` call on the head subtask discards its result and
has no effect). -/
structure TwitterUserAuthSubtask where
  subtask_id : String

/-- The `TwitterUserAuthFlowResponse` interface: all four fields are
optional in the wire format. -/
structure TwitterUserAuthFlowResponse where
  errors : Option (List TwitterApiErrorRaw)
  flow_token : Option JsVal
  status : Option String
  subtasks : Option (List TwitterUserAuthSubtask)

/-- Errors of the embedding: a plain `new Error(...)`, an
`AuthenticationError` (modelled from the spec, `errors.ts` not being among
the sources), or an `ApiError` built from a non-2xx response status. -/
inductive JsError where
  | plainError (message : String)
  | authenticationError (message : String)
  | apiError (status : Nat)

/-- Message carried by an error (`err.message`). The `ApiError` message
text is private to `errors.ts`; only its shape matters here. -/
def JsError.message : JsError → String
  | .plainError m => m
  | .authenticationError m => m
  | .apiError status => "request failed with status " ++ toString status

/-- The `FlowTokenResult` tagged union: `{status: "success", response}` or
`{status: "error", err}`. -/
inductive FlowTokenResult where
  | success (response : TwitterUserAuthFlowResponse)
  | error (err : JsError)

/-- Discriminator for error results. -/
def FlowTokenResult.isError : FlowTokenResult → Bool
  | .error _ => true
  | .success _ => false

/-- Truth of `flow?.flow_token == null`: the token is absent or `null`. -/
def flowTokenIsMissing : Option JsVal → Bool
  | none => true
  | some JsVal.null => true
  | some _ => false

/-- Truth of `typeof flow.flow_token === "string"`. -/
def flowTokenIsStr : Option JsVal → Bool
  | some (JsVal.str _) => true
  | _ => false

/-- The response-classification stage of `executeFlowTask` (everything
after `flexParseJson` on a 2xx response), with the source checks in
source order: missing token, non-empty `errors` (whose first entry builds
the message), non-string token, then a `DenyLoginSubtask` at the head of
the subtask queue; otherwise the parsed response is a success.  The
duplicated second `if (flow.errors?.length)` logging block of the source
is unreachable and has no effect on the result, and the typebox `Check`
call discards its result. -/
def classifyFlowResponse (flow : TwitterUserAuthFlowResponse) : FlowTokenResult :=
  if flowTokenIsMissing flow.flow_token then
    .error (.authenticationError "flow_token not found.")
  else
    match flow.errors with
    | some (e :: _) =>
      .error (.authenticationError
        ("Authentication error (" ++ toString e.code ++ "): " ++ e.message))
    | _ =>
      if !flowTokenIsStr flow.flow_token then
        .error (.authenticationError "flow_token was not a string.")
      else
        match flow.subtasks with
        | some (s :: _) =>
          if s.subtask_id = "DenyLoginSubtask" then
            .error (.authenticationError "Authentication error: DenyLoginSubtask")
          else .success flow
        | _ => .success flow

/-- C3: every parsed flow response whose first queued subtask has id
`DenyLoginSubtask` is classified as an Error by `executeFlowTask`,
whatever the `errors` array (empty, absent or non-empty) and whatever the
token: every path of the classification that could return a success first
passes the deny check, which fails. -/
theorem deny_login_subtask_always_error (flow : TwitterUserAuthFlowResponse)
    (s : TwitterUserAuthSubtask) (rest : List TwitterUserAuthSubtask)
    (hsub : flow.subtasks = some (s :: rest))
    (hid : s.subtask_id = "DenyLoginSubtask") :
    (classifyFlowResponse flow).isError = true := by
  unfold classifyFlowResponse
  by_cases hm : flowTokenIsMissing flow.flow_token = true
  · simp [hm, FlowTokenResult.isError]
  · cases herr : flow.errors with
    | none =>
      by_cases hs : flowTokenIsStr flow.flow_token = true
      · simp [hm, herr, hs, hsub, hid, FlowTokenResult.isError]
      · simp [hm, herr, hs, FlowTokenResult.isError]
    | some es =>
      cases es with
      | nil =>
        by_cases hs : flowTokenIsStr flow.flow_token = true
        · simp [hm, herr, hs, hsub, hid, FlowTokenResult.isError]
        · simp [hm, herr, hs, FlowTokenResult.isError]
      | cons e es' => simp [hm, herr, FlowTokenResult.isError]

/-- Witness for C3: a response with a string token, an empty `errors`
array and a queued `DenyLoginSubtask` is classified as an error. -/
theorem deny_login_subtask_always_error_witness :
    (classifyFlowResponse
        { errors := some [], flow_token := some (JsVal.str "tok-deny"),
          status := none,
          subtasks := some [{ subtask_id := "DenyLoginSubtask" }] }).isError = true :=
  deny_login_subtask_always_error _ _ _ rfl rfl

/-- C4: a parsed flow response with an empty (or absent) `errors` array
whose flow token is absent, `null` or not a string is classified as an
Error, and no classification ever produces a Success whose response
carries an absent, null or non-string token. -/
theorem missing_flow_token_is_error :
    (∀ flow : TwitterUserAuthFlowResponse,
        (flow.errors = none ∨ flow.errors = some []) →
        flowTokenIsStr flow.flow_token = false →
        (classifyFlowResponse flow).isError = true) ∧
      (∀ (flow : TwitterUserAuthFlowResponse) (resp : TwitterUserAuthFlowResponse),
        classifyFlowResponse flow = .success resp →
        flowTokenIsStr resp.flow_token = true) := by
  constructor
  · intro flow herr hstr
    unfold classifyFlowResponse
    by_cases hm : flowTokenIsMissing flow.flow_token = true
    · simp [hm, FlowTokenResult.isError]
    · rcases herr with h | h <;> simp [hm, h, hstr, FlowTokenResult.isError]
  · intro flow resp h
    unfold classifyFlowResponse at h
    split at h
    · cases h
    · split at h
      · cases h
      · split at h
        · cases h
        · split at h
          · split at h
            · cases h
            · cases h
              simp_all
          · cases h
            simp_all

/-- Witness for C4 at a response with an empty `errors` array and a `null`
flow token, and at a success classification. -/
theorem missing_flow_token_is_error_witness :
    (classifyFlowResponse
        { errors := some [], flow_token := some JsVal.null, status := none,
          subtasks := none }).isError = true :=
  missing_flow_token_is_error.1 _ (Or.inr rfl) rfl

/-! ### The fetch/retry loop of `executeFlowTask`

The do-while loop (fetch, cookie-jar update, rate-limit strategy on a 429)
is modelled over a script of transport outcomes, one per `this.fetch`
call, and produces the observable event trace of one `executeFlowTask`
invocation together with its outcome. -/

/-- Outcome of one `this.fetch` call inside the loop: the promise rejects
with an `Error` instance (returned as an error result), rejects with a
non-`Error` value (rethrown), or resolves with a response of the given
status whose parsed body is `flow` (only read when the status is 2xx). -/
inductive FetchOutcome where
  | fetchThrow (e : JsError)
  | fetchThrowNonError
  | fetchResp (status : Nat) (flow : TwitterUserAuthFlowResponse)

/-- Observable events of the loop, in order: a request sent through
`this.fetch` (carrying the serialized request), a cookie-jar update from
response headers (`updateCookieJar`), an invocation of the rate-limit
strategy (`this.onRateLimit`). -/
inductive FlowEvent where
  | send (request : TwitterUserAuthFlowRequest)
  | cookieUpdate
  | rateLimitInvoke

/-- How one `executeFlowTask` call ends: with a `FlowTokenResult`, with a
raised error (the null-guest-token guard throws, and a non-`Error`
rejection is rethrown), or with the script exhausted while the loop still
wanted to retry (the source imposes no retry bound). -/
inductive ExecOutcome where
  | result (r : FlowTokenResult)
  | raised (e : JsError)
  | raisedNonError
  | scriptExhausted

/-- Truth of `res.ok`. -/
def statusOk (status : Nat) : Bool := 200 ≤ status && status ≤ 299

/-- The do-while loop of `executeFlowTask` and the stages after it, in
source order per iteration: fetch (same URL, headers and serialized `data`
every iteration); on rejection with an `Error` return an error result
(non-`Error` rejections are rethrown); otherwise update the cookie jar
from the response headers, then on a 429 invoke the rate-limit strategy
and loop; after the loop a non-2xx response becomes an `ApiError` result
and a 2xx body is parsed and classified by `classifyFlowResponse`. -/
def executeFetchLoop (data : TwitterUserAuthFlowRequest) :
    List FetchOutcome → List FlowEvent × ExecOutcome
  | [] => ([], .scriptExhausted)
  | FetchOutcome.fetchThrow e :: _ =>
    ([FlowEvent.send data], .result (.error e))
  | FetchOutcome.fetchThrowNonError :: _ =>
    ([FlowEvent.send data], .raisedNonError)
  | FetchOutcome.fetchResp status flow :: rest =>
    if status = 429 then
      let next := executeFetchLoop data rest
      (FlowEvent.send data :: FlowEvent.cookieUpdate :: FlowEvent.rateLimitInvoke :: next.1,
        next.2)
    else if statusOk status then
      ([FlowEvent.send data, FlowEvent.cookieUpdate],
        .result (classifyFlowResponse flow))
    else
      ([FlowEvent.send data, FlowEvent.cookieUpdate],
        .result (.error (.apiError status)))

/-- Method `TwitterUserAuth.executeFlowTask`: the null-guest-token guard throws an
`AuthenticationError` before any fetch; otherwise the fetch loop runs. -/
def executeFlowTask (guestToken : Option String) (data : TwitterUserAuthFlowRequest)
    (script : List FetchOutcome) : List FlowEvent × ExecOutcome :=
  match guestToken with
  | none =>
    ([], .raised (.authenticationError "Authentication token is null or undefined."))
  | some _ => executeFetchLoop data script

/-- Discipline of an `executeFlowTask` trace: rounds of
send / cookie-update / rate-limit-strategy repeat while the endpoint
answers 429, every send carries the identical request `data`, every
received response updates the cookie jar immediately after the send and
before any other processing, and the trace ends with at most one
non-rate-limited round (a bare send is a fetch rejection, which has no
response to absorb cookies from). -/
def flowTraceOk (data : TwitterUserAuthFlowRequest) : List FlowEvent → Prop
  | [] => True
  | [FlowEvent.send r] => r = data
  | [FlowEvent.send r, FlowEvent.cookieUpdate] => r = data
  | FlowEvent.send r :: FlowEvent.cookieUpdate :: FlowEvent.rateLimitInvoke :: rest =>
    r = data ∧ flowTraceOk data rest
  | _ => False

theorem executeFetchLoop_trace (data : TwitterUserAuthFlowRequest)
    (script : List FetchOutcome) :
    flowTraceOk data (executeFetchLoop data script).1 := by
  induction script with
  | nil => simp [executeFetchLoop, flowTraceOk]
  | cons o rest ih =>
    cases o with
    | fetchThrow e => simp [executeFetchLoop, flowTraceOk]
    | fetchThrowNonError => simp [executeFetchLoop, flowTraceOk]
    | fetchResp status flow =>
      by_cases h429 : status = 429
      · simp only [executeFetchLoop, h429, if_true, ite_true]
        exact ⟨rfl, ih⟩
      · by_cases hok : statusOk status = true
        · simp [executeFetchLoop, h429, hok, flowTraceOk]
        · simp [executeFetchLoop, h429, hok, flowTraceOk]

/-- C6: the retry loop of `executeFlowTask` obeys the rate-limit
discipline on every script — each 429 response leads to exactly one
cookie-jar update followed by exactly one rate-limit-strategy invocation
and a resubmission of the identical request, repeating until a non-429
response arrives, and every response updates the cookie jar immediately
after its send, before any other processing — and on the scripted scenario
of a 429 followed by a 2xx success the trace is exactly
send, cookie-update, rate-limit, send, cookie-update (two sends, one
strategy invocation) with the second response classified as the result. -/
theorem rate_limit_retry_behavior :
    (∀ (guestToken : Option String) (data : TwitterUserAuthFlowRequest)
        (script : List FetchOutcome),
        flowTraceOk data (executeFlowTask guestToken data script).1) ∧
      (∀ (g : String) (data : TwitterUserAuthFlowRequest)
          (flow1 flow2 : TwitterUserAuthFlowResponse) (status : Nat),
        statusOk status = true →
        executeFlowTask (some g) data
            [FetchOutcome.fetchResp 429 flow1, FetchOutcome.fetchResp status flow2]
          = ([FlowEvent.send data, FlowEvent.cookieUpdate, FlowEvent.rateLimitInvoke,
              FlowEvent.send data, FlowEvent.cookieUpdate],
              ExecOutcome.result (classifyFlowResponse flow2))) := by
  constructor
  · intro guestToken data script
    cases guestToken with
    | none => simp [executeFlowTask, flowTraceOk]
    | some g => exact executeFetchLoop_trace data script
  · intro g data flow1 flow2 status hok
    have h429 : ¬ status = 429 := fun hc => by
      subst hc; exact absurd hok (by decide)
    simp [executeFlowTask, executeFetchLoop, h429, hok]

/-- Witness for C6: a 429 answered by a 200 yields two sends and one
rate-limit-strategy invocation. -/
theorem rate_limit_retry_behavior_witness :
    executeFlowTask (some "guest-token")
        (TwitterUserAuthFlowRequest.subtaskRequest "tok" [])
        [FetchOutcome.fetchResp 429
           { errors := none, flow_token := none, status := none, subtasks := none },
         FetchOutcome.fetchResp 200
           { errors := none, flow_token := some (JsVal.str "tok-next"), status := none,
             subtasks := none }]
      = ([FlowEvent.send (TwitterUserAuthFlowRequest.subtaskRequest "tok" []),
          FlowEvent.cookieUpdate, FlowEvent.rateLimitInvoke,
          FlowEvent.send (TwitterUserAuthFlowRequest.subtaskRequest "tok" []),
          FlowEvent.cookieUpdate],
          ExecOutcome.result (classifyFlowResponse
            { errors := none, flow_token := some (JsVal.str "tok-next"), status := none,
              subtasks := none })) :=
  rate_limit_retry_behavior.2 "guest-token" _ _ _ 200 (by decide)

/-! ### The two-factor challenge handler (`handleTwoFactorAuthChallenge`)

The handler is scripted by the outcome of each `api.sendFlowRequest`
attempt (the generated TOTP code itself does not influence control flow,
so request payloads are not recorded here, only sends and delays). -/

/-- The credentials record assembled by `login`. -/
structure TwitterUserAuthCredentials where
  username : String
  password : String
  email : Option String
  twoFactorSecret : Option String

/-- Outcome of one `api.sendFlowRequest` call: the promise resolves with a
`FlowTokenResult` (success- or error-status), or rejects. -/
inductive AttemptOutcome where
  | attemptReturns (r : FlowTokenResult)
  | attemptThrows (e : JsError)

/-- Observable events of the handler: a send through `api.sendFlowRequest`
or an awaited `setTimeout` delay of the given number of milliseconds. -/
inductive TfEvent where
  | send
  | delayMs (ms : Nat)

/-- How the handler ends: it returns a result, or the `throw error` after
the loop re-raises the last caught failure (`none` would be the never
exercised `throw undefined` of a loop that never ran). -/
inductive TfOutcome where
  | returned (r : FlowTokenResult)
  | raised (lastError : Option JsError)

/-- JavaScript truthiness of `credentials.twoFactorSecret` (an absent or
empty-string secret is falsy). -/
def jsTruthyStr : Option String → Bool
  | none => false
  | some s => s != ""

/-- The retry loop `for (let attempts = 1; attempts < 4; attempts += 1)`:
each iteration returns the awaited send result if it resolves, and on a
rejection records the error and sleeps `2000 * attempts` before the next
test of the loop condition; after the loop the last error is re-raised.
Structured on `remaining`, the number of loop tests left, so that
`remaining = 4 - attempts`; the top-level call is `remaining = 3`,
`attempts = 1`. -/
def twoFactorAttemptLoop (script : Nat → AttemptOutcome) :
    Nat → Nat → Option JsError → List TfEvent × TfOutcome
  | 0, _, lastError => ([], .raised lastError)
  | remaining + 1, attempts, _ =>
    match script attempts with
    | .attemptReturns r => ([TfEvent.send], .returned r)
    | .attemptThrows e =>
      let next := twoFactorAttemptLoop script remaining (attempts + 1) (some e)
      (TfEvent.send :: TfEvent.delayMs (2000 * attempts) :: next.1, next.2)

/-- Method `TwitterUserAuth.handleTwoFactorAuthChallenge`: a falsy TOTP secret is
an immediate `AuthenticationError` result with no network call; otherwise
the TOTP code is generated and submitted by the retry loop. -/
def handleTwoFactorAuthChallenge (credentials : TwitterUserAuthCredentials)
    (script : Nat → AttemptOutcome) : List TfEvent × TfOutcome :=
  if jsTruthyStr credentials.twoFactorSecret = false then
    ([], .returned (.error (.authenticationError
      "Two-factor authentication is required but no secret was provided")))
  else
    twoFactorAttemptLoop script 3 1 none

/-- Number of send events in a handler trace. -/
def countSends : List TfEvent → Nat
  | [] => 0
  | TfEvent.send :: rest => countSends rest + 1
  | TfEvent.delayMs _ :: rest => countSends rest

theorem twoFactorAttemptLoop_send_bound (script : Nat → AttemptOutcome) :
    ∀ (remaining attempts : Nat) (lastError : Option JsError),
      countSends (twoFactorAttemptLoop script remaining attempts lastError).1
        ≤ remaining := by
  intro remaining
  induction remaining with
  | zero => intro attempts lastError; simp [twoFactorAttemptLoop, countSends]
  | succ k ih =>
    intro attempts lastError
    cases h : script attempts with
    | attemptReturns r => simp [twoFactorAttemptLoop, h, countSends]
    | attemptThrows e =>
      simp only [twoFactorAttemptLoop, h, countSends]
      have := ih (attempts + 1) (some e)
      omega

/-- C2: with a TOTP seed present, each exception-raising submission is
retried with at most 3 attempts total, attempt `n` being followed by a
delay of `2000 * n` milliseconds (so the recorded delays 2000, 4000
(,6000) are monotonically non-decreasing); a transport that fails twice
and then succeeds produces exactly 3 sends and the successful result, a
transport that fails three times produces 3 sends and re-raises the third
failure unchanged, and no script whatsoever yields more than 3 sends. -/
theorem totp_retry_policy :
    (∀ (credentials : TwitterUserAuthCredentials) (script : Nat → AttemptOutcome)
        (e1 e2 : JsError) (r : FlowTokenResult),
        jsTruthyStr credentials.twoFactorSecret = true →
        script 1 = .attemptThrows e1 → script 2 = .attemptThrows e2 →
        script 3 = .attemptReturns r →
        handleTwoFactorAuthChallenge credentials script
          = ([TfEvent.send, TfEvent.delayMs 2000, TfEvent.send, TfEvent.delayMs 4000,
              TfEvent.send], .returned r)) ∧
      (∀ (credentials : TwitterUserAuthCredentials) (script : Nat → AttemptOutcome)
          (e1 e2 e3 : JsError),
        jsTruthyStr credentials.twoFactorSecret = true →
        script 1 = .attemptThrows e1 → script 2 = .attemptThrows e2 →
        script 3 = .attemptThrows e3 →
        handleTwoFactorAuthChallenge credentials script
          = ([TfEvent.send, TfEvent.delayMs 2000, TfEvent.send, TfEvent.delayMs 4000,
              TfEvent.send, TfEvent.delayMs 6000], .raised (some e3))) ∧
      (∀ (credentials : TwitterUserAuthCredentials) (script : Nat → AttemptOutcome),
        countSends (handleTwoFactorAuthChallenge credentials script).1 ≤ 3) := by
  refine ⟨?_, ?_, ?_⟩
  · intro credentials script e1 e2 r hsec h1 h2 h3
    simp [handleTwoFactorAuthChallenge, hsec, twoFactorAttemptLoop, h1, h2, h3]
  · intro credentials script e1 e2 e3 hsec h1 h2 h3
    simp [handleTwoFactorAuthChallenge, hsec, twoFactorAttemptLoop, h1, h2, h3]
  · intro credentials script
    unfold handleTwoFactorAuthChallenge
    by_cases hsec : jsTruthyStr credentials.twoFactorSecret = false
    · simp [hsec, countSends]
    · simp only [hsec, if_false, ite_false]
      exact twoFactorAttemptLoop_send_bound script 3 1 none

/-- Witness for C2: a concrete seed and a transport failing twice then
succeeding give exactly the 3-send trace with delays 2000 and 4000. -/
theorem totp_retry_policy_witness :
    handleTwoFactorAuthChallenge
        { username := "alice", password := "pw", email := none,
          twoFactorSecret := some "JBSWY3DPEHPK3PXP" }
        (fun attempts =>
          if attempts < 3 then .attemptThrows (.plainError "socket hang up")
          else .attemptReturns (.success
            { errors := none, flow_token := some (JsVal.str "tok-2fa"), status := none,
              subtasks := some [] }))
      = ([TfEvent.send, TfEvent.delayMs 2000, TfEvent.send, TfEvent.delayMs 4000,
          TfEvent.send],
          .returned (.success
            { errors := none, flow_token := some (JsVal.str "tok-2fa"), status := none,
              subtasks := some [] })) :=
  totp_retry_policy.1 _ _ (.plainError "socket hang up") (.plainError "socket hang up") _
    rfl rfl rfl rfl

/-- C8: invoked with credentials lacking a TOTP seed, the handler returns
the `AuthenticationError` result immediately, with an empty event trace:
zero sends through the handler API. -/
theorem totp_missing_seed_immediate_error
    (credentials : TwitterUserAuthCredentials) (script : Nat → AttemptOutcome)
    (h : credentials.twoFactorSecret = none) :
    handleTwoFactorAuthChallenge credentials script
      = ([], .returned (.error (.authenticationError
          "Two-factor authentication is required but no secret was provided"))) := by
  simp [handleTwoFactorAuthChallenge, jsTruthyStr, h]

/-- Witness for C8 at concrete seedless credentials. -/
theorem totp_missing_seed_immediate_error_witness :
    handleTwoFactorAuthChallenge
        { username := "alice", password := "pw", email := none, twoFactorSecret := none }
        (fun _ => .attemptThrows (.plainError "unreachable"))
      = ([], .returned (.error (.authenticationError
          "Two-factor authentication is required but no secret was provided"))) :=
  totp_missing_seed_immediate_error _ _ rfl

/-- C10: a `FlowTokenResult` that the send operation *returns* — as
`executeFlowTask` does for fetch rejections with an `Error` and for
non-2xx responses, rather than throwing — is returned by the two-factor
handler from the first attempt with a single send, no delay and no retry
(so in particular an error-status result is passed through immediately);
the retry loop engages only for failures raised as exceptions. -/
theorem totp_error_results_not_retried :
    (∀ (credentials : TwitterUserAuthCredentials) (script : Nat → AttemptOutcome)
        (r : FlowTokenResult),
        jsTruthyStr credentials.twoFactorSecret = true →
        script 1 = .attemptReturns r →
        handleTwoFactorAuthChallenge credentials script
          = ([TfEvent.send], .returned r)) ∧
      (∀ (data : TwitterUserAuthFlowRequest) (e : JsError) (rest : List FetchOutcome),
        executeFetchLoop data (FetchOutcome.fetchThrow e :: rest)
          = ([FlowEvent.send data], ExecOutcome.result (FlowTokenResult.error e))) ∧
      (∀ (data : TwitterUserAuthFlowRequest) (status : Nat)
          (flow : TwitterUserAuthFlowResponse),
        statusOk status = false → status ≠ 429 →
        executeFetchLoop data [FetchOutcome.fetchResp status flow]
          = ([FlowEvent.send data, FlowEvent.cookieUpdate],
              ExecOutcome.result (FlowTokenResult.error (JsError.apiError status)))) := by
  refine ⟨?_, ?_, ?_⟩
  · intro credentials script r hsec h1
    simp [handleTwoFactorAuthChallenge, hsec, twoFactorAttemptLoop, h1]
  · intro data e rest
    simp [executeFetchLoop]
  · intro data status flow hok h429
    simp [executeFetchLoop, h429, hok]

/-- Witness for C10: an error-status result at the first attempt is
returned after exactly one send and no delay. -/
theorem totp_error_results_not_retried_witness :
    handleTwoFactorAuthChallenge
        { username := "alice", password := "pw", email := none,
          twoFactorSecret := some "JBSWY3DPEHPK3PXP" }
        (fun _ => .attemptReturns (.error (.apiError 403)))
      = ([TfEvent.send], .returned (.error (.apiError 403))) :=
  totp_error_results_not_retried.1 _ _ (.error (.apiError 403)) rfl rfl

/-! ### The login orchestrator loop (`TwitterUserAuth.login`)

The while loop of `login` is modelled with the handler results scripted:
every default handler except `handleSuccessSubtask` consists, on its
non-exceptional path, of exactly one continuation request through
`executeFlowTask` whose result becomes the next loop value, so one scripted
`FlowTokenResult` is consumed per dispatched sending handler.
`handleSuccessSubtask` synthesizes, without any network call, a Success
carrying the current flow token and an empty subtask queue; the loop guard
`next.status === "success" && next.response.subtasks?.length` then fails
and the attempt completes — that final guard evaluation is folded into the
`LoginSuccessSubtask` branch below.  The model returns the list of
dispatched subtask ids, the number of continuation requests issued, and
the outcome. -/

/-- The subtask ids preloaded by `initializeDefaultHandlers`. -/
def defaultSubtaskHandlerIds : List String :=
  ["LoginJsInstrumentationSubtask", "LoginEnterUserIdentifierSSO",
   "LoginEnterAlternateIdentifierSubtask", "LoginEnterPassword",
   "AccountDuplicationCheck", "LoginTwoFactorAuthChallenge",
   "LoginAcid", "LoginSuccessSubtask"]

/-- How a login attempt ends: the loop exits on a Success with an empty
queue (`completed`), the loop exits on an Error and `login` throws an
`AuthenticationError` built by `loginFailureMessage` (`failedAuth`), a
plain `Error` is thrown from inside the loop (`thrownError`), or the
script ran out of handler results (`scriptExhausted`, a modelling
artifact). -/
inductive LoginOutcome where
  | completed (lastSubtaskId : Option String)
  | failedAuth (lastSubtaskId : Option String) (message : String)
  | thrownError (message : String)
  | scriptExhausted

/-- The message of the `AuthenticationError` thrown after the loop:
`Login flow failed after <lastSubtaskId ?? "initialization">: <message>`. -/
def loginFailureMessage (lastSubtaskId : Option String) (errMessage : String) : String :=
  "Login flow failed after " ++ lastSubtaskId.getD "initialization" ++ ": " ++ errMessage

/-- The while loop of `login`, from a current result `next` and the
`lastSubtaskId` recorded so far.  Per iteration, in source order: the loop
guard (success status and a non-empty subtask queue), the
`flow_token == null` assertion (a plain thrown `Error`), the dispatch of
only the head of the subtask queue to its registered handler — an
unregistered id throws a plain `Unknown subtask <id>` `Error` — and the
handler result becoming the new `next`. -/
def loginLoop (script : List FlowTokenResult) (next : FlowTokenResult)
    (lastSubtaskId : Option String) : List String × Nat × LoginOutcome :=
  match next with
  | .error e =>
    ([], 0, .failedAuth lastSubtaskId (loginFailureMessage lastSubtaskId (JsError.message e)))
  | .success resp =>
    match resp.subtasks with
    | none => ([], 0, .completed lastSubtaskId)
    | some [] => ([], 0, .completed lastSubtaskId)
    | some (s :: _) =>
      if flowTokenIsMissing resp.flow_token then
        ([], 0, .thrownError "flow_token not found.")
      else if defaultSubtaskHandlerIds.contains s.subtask_id then
        if s.subtask_id = "LoginSuccessSubtask" then
          ([s.subtask_id], 0, .completed (some s.subtask_id))
        else
          match script with
          | [] => ([s.subtask_id], 1, .scriptExhausted)
          | r :: script' =>
            let rest := loginLoop script' r (some s.subtask_id)
            (s.subtask_id :: rest.1, rest.2.1 + 1, rest.2.2)
      else ([], 0, .thrownError ("Unknown subtask " ++ s.subtask_id))

theorem loginLoop_error (script : List FlowTokenResult) (e : JsError)
    (lastSubtaskId : Option String) :
    loginLoop script (.error e) lastSubtaskId
      = ([], 0, .failedAuth lastSubtaskId
          (loginFailureMessage lastSubtaskId (JsError.message e))) := by
  rw [loginLoop.eq_def]

theorem loginLoop_done (script : List FlowTokenResult)
    (resp : TwitterUserAuthFlowResponse) (lastSubtaskId : Option String)
    (h : resp.subtasks = none ∨ resp.subtasks = some []) :
    loginLoop script (.success resp) lastSubtaskId = ([], 0, .completed lastSubtaskId) := by
  rcases h with h | h <;> (rw [loginLoop.eq_def]; simp [h])

theorem loginLoop_missing_token (script : List FlowTokenResult)
    (resp : TwitterUserAuthFlowResponse) (lastSubtaskId : Option String)
    (s : TwitterUserAuthSubtask) (rest : List TwitterUserAuthSubtask)
    (hsub : resp.subtasks = some (s :: rest))
    (hm : flowTokenIsMissing resp.flow_token = true) :
    loginLoop script (.success resp) lastSubtaskId
      = ([], 0, .thrownError "flow_token not found.") := by
  rw [loginLoop.eq_def]
  simp [hsub, hm]

theorem loginLoop_unknown (script : List FlowTokenResult)
    (resp : TwitterUserAuthFlowResponse) (lastSubtaskId : Option String)
    (s : TwitterUserAuthSubtask) (rest : List TwitterUserAuthSubtask)
    (hsub : resp.subtasks = some (s :: rest))
    (hm : flowTokenIsMissing resp.flow_token = false)
    (hc : defaultSubtaskHandlerIds.contains s.subtask_id = false) :
    loginLoop script (.success resp) lastSubtaskId
      = ([], 0, .thrownError ("Unknown subtask " ++ s.subtask_id)) := by
  have hc2 : s.subtask_id ∉ defaultSubtaskHandlerIds := by simpa using hc
  rw [loginLoop.eq_def]
  simp [hsub, hm, hc2]

theorem loginLoop_success_subtask (script : List FlowTokenResult)
    (resp : TwitterUserAuthFlowResponse) (lastSubtaskId : Option String)
    (s : TwitterUserAuthSubtask) (rest : List TwitterUserAuthSubtask)
    (hsub : resp.subtasks = some (s :: rest))
    (hm : flowTokenIsMissing resp.flow_token = false)
    (hss : s.subtask_id = "LoginSuccessSubtask") :
    loginLoop script (.success resp) lastSubtaskId
      = ([s.subtask_id], 0, .completed (some s.subtask_id)) := by
  rw [loginLoop.eq_def]
  simp [hsub, hm, hss, defaultSubtaskHandlerIds]

theorem loginLoop_send (script : List FlowTokenResult) (r : FlowTokenResult)
    (resp : TwitterUserAuthFlowResponse) (lastSubtaskId : Option String)
    (s : TwitterUserAuthSubtask) (rest : List TwitterUserAuthSubtask)
    (hsub : resp.subtasks = some (s :: rest))
    (hm : flowTokenIsMissing resp.flow_token = false)
    (hc : defaultSubtaskHandlerIds.contains s.subtask_id = true)
    (hss : s.subtask_id ≠ "LoginSuccessSubtask") :
    loginLoop (r :: script) (.success resp) lastSubtaskId
      = (s.subtask_id :: (loginLoop script r (some s.subtask_id)).1,
         (loginLoop script r (some s.subtask_id)).2.1 + 1,
         (loginLoop script r (some s.subtask_id)).2.2) := by
  have hc2 : s.subtask_id ∈ defaultSubtaskHandlerIds := by simpa using hc
  rw [loginLoop.eq_def]
  simp [hsub, hm, hc2, hss]

theorem loginLoop_exhausted (resp : TwitterUserAuthFlowResponse)
    (lastSubtaskId : Option String)
    (s : TwitterUserAuthSubtask) (rest : List TwitterUserAuthSubtask)
    (hsub : resp.subtasks = some (s :: rest))
    (hm : flowTokenIsMissing resp.flow_token = false)
    (hc : defaultSubtaskHandlerIds.contains s.subtask_id = true)
    (hss : s.subtask_id ≠ "LoginSuccessSubtask") :
    loginLoop [] (.success resp) lastSubtaskId
      = ([s.subtask_id], 1, .scriptExhausted) := by
  have hc2 : s.subtask_id ∈ defaultSubtaskHandlerIds := by simpa using hc
  rw [loginLoop.eq_def]
  simp [hsub, hm, hc2, hss]

/-- A scripted round as in the spec scenario: a success response carrying
a usable flow token and exactly one queued subtask, handled by a
registered sending handler. -/
def roundOK (resp : TwitterUserAuthFlowResponse) : Bool :=
  !flowTokenIsMissing resp.flow_token &&
    (match resp.subtasks with
     | some [s] =>
       defaultSubtaskHandlerIds.contains s.subtask_id &&
         s.subtask_id != "LoginSuccessSubtask"
     | _ => false)

theorem roundOK_spec (resp : TwitterUserAuthFlowResponse) (h : roundOK resp = true) :
    flowTokenIsMissing resp.flow_token = false ∧
      ∃ s, resp.subtasks = some [s] ∧
        defaultSubtaskHandlerIds.contains s.subtask_id = true ∧
        s.subtask_id ≠ "LoginSuccessSubtask" := by
  unfold roundOK at h
  simp only [Bool.and_eq_true, Bool.not_eq_true'] at h
  obtain ⟨hm, h⟩ := h
  refine ⟨hm, ?_⟩
  cases hsub : resp.subtasks with
  | none => rw [hsub] at h; cases h
  | some subs =>
    rw [hsub] at h
    cases subs with
    | nil => cases h
    | cons s srest =>
      cases srest with
      | nil =>
        simp only [Bool.and_eq_true, bne_iff_ne, ne_eq] at h
        exact ⟨s, rfl, h.1, h.2⟩
      | cons s2 srest2 => cases h

theorem loginLoop_sender_rounds (terminalResp : TwitterUserAuthFlowResponse)
    (hterm : terminalResp.subtasks = some []) :
    ∀ (rounds : List TwitterUserAuthFlowResponse) (r0 : TwitterUserAuthFlowResponse)
      (lastSubtaskId : Option String),
      roundOK r0 = true → rounds.all roundOK = true →
      ∃ sid : String,
        (loginLoop
            (rounds.map FlowTokenResult.success ++ [FlowTokenResult.success terminalResp])
            (FlowTokenResult.success r0) lastSubtaskId).2
          = (rounds.length + 1, LoginOutcome.completed (some sid)) := by
  intro rounds
  induction rounds with
  | nil =>
    intro r0 lastSubtaskId h0 _
    obtain ⟨hm, s, hsub, hc, hss⟩ := roundOK_spec r0 h0
    refine ⟨s.subtask_id, ?_⟩
    simp only [List.map_nil, List.nil_append, List.length_nil]
    rw [loginLoop_send [] (FlowTokenResult.success terminalResp) r0 lastSubtaskId s []
      hsub hm hc hss]
    rw [loginLoop_done [] terminalResp (some s.subtask_id) (Or.inr hterm)]
  | cons round rest ih =>
    intro r0 lastSubtaskId h0 hall
    simp only [List.all_cons, Bool.and_eq_true] at hall
    obtain ⟨hm, s, hsub, hc, hss⟩ := roundOK_spec r0 h0
    obtain ⟨sid, hrest⟩ := ih round (some s.subtask_id) hall.1 hall.2
    refine ⟨sid, ?_⟩
    simp only [List.map_cons, List.cons_append, List.length_cons]
    rw [loginLoop_send _ _ r0 lastSubtaskId s [] hsub hm hc hss]
    have h1 : (loginLoop
        (rest.map FlowTokenResult.success ++ [FlowTokenResult.success terminalResp])
        (FlowTokenResult.success round) (some s.subtask_id)).2.1 = rest.length + 1 := by
      rw [hrest]
    have h2 : (loginLoop
        (rest.map FlowTokenResult.success ++ [FlowTokenResult.success terminalResp])
        (FlowTokenResult.success round) (some s.subtask_id)).2.2
        = LoginOutcome.completed (some sid) := by
      rw [hrest]
    simp [h1, h2]

/-- C5: in every round the Orchestrator dispatches only the head of the
subtask queue of the response — siblings in the same response do not influence
the loop at all (first conjunct: the tail of the queue is irrelevant) —
and a scripted run of an initial round response followed by `rounds`
further one-subtask sender rounds and a terminal empty-queue response
issues exactly `rounds.length + 1` continuation requests (one per round)
before completing. -/
theorem orchestrator_head_dispatch_and_round_count :
    (∀ (script : List FlowTokenResult) (errors : Option (List TwitterApiErrorRaw))
        (flow_token : Option JsVal) (status : Option String)
        (s : TwitterUserAuthSubtask) (rest rest' : List TwitterUserAuthSubtask)
        (lastSubtaskId : Option String),
        loginLoop script
            (FlowTokenResult.success ⟨errors, flow_token, status, some (s :: rest)⟩)
            lastSubtaskId
          = loginLoop script
              (FlowTokenResult.success ⟨errors, flow_token, status, some (s :: rest')⟩)
              lastSubtaskId) ∧
      (∀ (terminalResp : TwitterUserAuthFlowResponse)
          (rounds : List TwitterUserAuthFlowResponse)
          (r0 : TwitterUserAuthFlowResponse) (lastSubtaskId : Option String),
        terminalResp.subtasks = some [] →
        roundOK r0 = true → rounds.all roundOK = true →
        ∃ sid : String,
          (loginLoop
              (rounds.map FlowTokenResult.success ++ [FlowTokenResult.success terminalResp])
              (FlowTokenResult.success r0) lastSubtaskId).2
            = (rounds.length + 1, LoginOutcome.completed (some sid))) := by
  constructor
  · intro script errors flow_token status s rest rest' lastSubtaskId
    by_cases hm : flowTokenIsMissing flow_token = true
    · rw [loginLoop_missing_token script ⟨errors, flow_token, status, some (s :: rest)⟩
          lastSubtaskId s rest rfl hm,
        loginLoop_missing_token script ⟨errors, flow_token, status, some (s :: rest')⟩
          lastSubtaskId s rest' rfl hm]
    · have hm2 : flowTokenIsMissing flow_token = false := by simpa using hm
      by_cases hc : defaultSubtaskHandlerIds.contains s.subtask_id = true
      · by_cases hss : s.subtask_id = "LoginSuccessSubtask"
        · rw [loginLoop_success_subtask script ⟨errors, flow_token, status, some (s :: rest)⟩
              lastSubtaskId s rest rfl hm2 hss,
            loginLoop_success_subtask script ⟨errors, flow_token, status, some (s :: rest')⟩
              lastSubtaskId s rest' rfl hm2 hss]
        · cases script with
          | nil =>
            rw [loginLoop_exhausted ⟨errors, flow_token, status, some (s :: rest)⟩
                lastSubtaskId s rest rfl hm2 hc hss,
              loginLoop_exhausted ⟨errors, flow_token, status, some (s :: rest')⟩
                lastSubtaskId s rest' rfl hm2 hc hss]
          | cons r script' =>
            rw [loginLoop_send script' r ⟨errors, flow_token, status, some (s :: rest)⟩
                lastSubtaskId s rest rfl hm2 hc hss,
              loginLoop_send script' r ⟨errors, flow_token, status, some (s :: rest')⟩
                lastSubtaskId s rest' rfl hm2 hc hss]
      · have hc2 : defaultSubtaskHandlerIds.contains s.subtask_id = false := by
          simpa using hc
        rw [loginLoop_unknown script ⟨errors, flow_token, status, some (s :: rest)⟩
            lastSubtaskId s rest rfl hm2 hc2,
          loginLoop_unknown script ⟨errors, flow_token, status, some (s :: rest')⟩
            lastSubtaskId s rest' rfl hm2 hc2]
  · intro terminalResp rounds r0 lastSubtaskId hterm h0 hall
    exact loginLoop_sender_rounds terminalResp hterm rounds r0 lastSubtaskId h0 hall

/-- Witness for C5: a sibling in the queue does not change the loop, and a
2-round scripted run issues exactly 2 continuation requests. -/
theorem orchestrator_head_dispatch_and_round_count_witness :
    loginLoop []
        (FlowTokenResult.success
          ⟨none, some (JsVal.str "t1"), none,
            some [⟨"LoginEnterPassword"⟩, ⟨"LoginAcid"⟩]⟩) none
      = loginLoop []
          (FlowTokenResult.success
            ⟨none, some (JsVal.str "t1"), none, some [⟨"LoginEnterPassword"⟩]⟩) none ∧
      ∃ sid : String,
        (loginLoop
            [FlowTokenResult.success
              ⟨none, some (JsVal.str "t2"), none, some [⟨"LoginEnterPassword"⟩]⟩,
             FlowTokenResult.success ⟨none, some (JsVal.str "t3"), none, some []⟩]
            (FlowTokenResult.success
              ⟨none, some (JsVal.str "t1"), none,
                some [⟨"LoginJsInstrumentationSubtask"⟩]⟩) none).2
          = (2, LoginOutcome.completed (some sid)) := by
  constructor
  · exact orchestrator_head_dispatch_and_round_count.1 [] none (some (JsVal.str "t1"))
      none ⟨"LoginEnterPassword"⟩ [⟨"LoginAcid"⟩] [] none
  · exact orchestrator_head_dispatch_and_round_count.2
      ⟨none, some (JsVal.str "t3"), none, some []⟩
      [⟨none, some (JsVal.str "t2"), none, some [⟨"LoginEnterPassword"⟩]⟩]
      ⟨none, some (JsVal.str "t1"), none, some [⟨"LoginJsInstrumentationSubtask"⟩]⟩
      none rfl (by rfl) (by rfl)

/-- Test for the shape C7 requires of a fatal outcome: an
`AuthenticationError` raised after the loop, carrying the
subtask-or-initialization context. -/
def LoginOutcome.isContextualAuthFailure : LoginOutcome → Bool
  | .failedAuth _ _ => true
  | _ => false

/-- Counterexample to C7 as stated: a response queueing the unregistered
subtask id `ArkoseLogin` is a fatal failure, but the loop throws the plain
`Error` `Unknown subtask ArkoseLogin` — not an authentication error
identifying the subtask (or "initialization") *after which* the failure
occurred. -/
theorem login_failure_context_counterexample :
    (loginLoop []
        (FlowTokenResult.success
          { errors := none, flow_token := some (JsVal.str "tok"), status := none,
            subtasks := some [{ subtask_id := "ArkoseLogin" }] }) none).2.2
      = LoginOutcome.thrownError "Unknown subtask ArkoseLogin" ∧
      ((loginLoop []
          (FlowTokenResult.success
            { errors := none, flow_token := some (JsVal.str "tok"), status := none,
              subtasks := some [{ subtask_id := "ArkoseLogin" }] }) none).2.2).isContextualAuthFailure
        = false := by
  constructor <;> rfl

/-- C7 amended: fatal failures surfaced to the loop as Error results —
transport failures, remote rejections, protocol violations detected by the
transport, credential errors — all raise the single `AuthenticationError`
whose message is `loginFailureMessage`, identifying the subtask (or
"initialization") after which the failure occurred; however an
unrecognized subtask id instead throws the plain error
`Unknown subtask <id>` naming the unhandled subtask itself, and a success
response missing its flow token throws the plain internal assertion error
`flow_token not found.`.  No other failure shapes exist (besides the
modelling artifact of an exhausted script), and no Error result is
silently swallowed. -/
theorem login_failures_characterized (script : List FlowTokenResult)
    (next : FlowTokenResult) (lastSubtaskId : Option String) :
    (∃ sid, (loginLoop script next lastSubtaskId).2.2 = LoginOutcome.completed sid) ∨
      (∃ sid emsg, (loginLoop script next lastSubtaskId).2.2
          = LoginOutcome.failedAuth sid (loginFailureMessage sid emsg)) ∨
      (loginLoop script next lastSubtaskId).2.2
          = LoginOutcome.thrownError "flow_token not found." ∨
      (∃ sid, (loginLoop script next lastSubtaskId).2.2
          = LoginOutcome.thrownError ("Unknown subtask " ++ sid)) ∨
      (loginLoop script next lastSubtaskId).2.2 = LoginOutcome.scriptExhausted := by
  induction script generalizing next lastSubtaskId with
  | nil =>
    cases next with
    | error e =>
      exact Or.inr (Or.inl ⟨lastSubtaskId, JsError.message e, by rw [loginLoop_error]⟩)
    | success resp =>
      cases hsub : resp.subtasks with
      | none => exact Or.inl ⟨lastSubtaskId, by rw [loginLoop_done _ _ _ (Or.inl hsub)]⟩
      | some subs =>
        cases subs with
        | nil => exact Or.inl ⟨lastSubtaskId, by rw [loginLoop_done _ _ _ (Or.inr hsub)]⟩
        | cons s srest =>
          by_cases hm : flowTokenIsMissing resp.flow_token = true
          · exact Or.inr (Or.inr (Or.inl
              (by rw [loginLoop_missing_token _ _ _ s srest hsub hm])))
          · have hm2 : flowTokenIsMissing resp.flow_token = false := by simpa using hm
            by_cases hc : defaultSubtaskHandlerIds.contains s.subtask_id = true
            · by_cases hss : s.subtask_id = "LoginSuccessSubtask"
              · exact Or.inl ⟨some s.subtask_id,
                  by rw [loginLoop_success_subtask _ _ _ s srest hsub hm2 hss]⟩
              · exact Or.inr (Or.inr (Or.inr (Or.inr
                  (by rw [loginLoop_exhausted _ _ s srest hsub hm2 hc hss]))))
            · have hc2 : defaultSubtaskHandlerIds.contains s.subtask_id = false := by
                simpa using hc
              exact Or.inr (Or.inr (Or.inr (Or.inl ⟨s.subtask_id,
                by rw [loginLoop_unknown _ _ _ s srest hsub hm2 hc2]⟩)))
  | cons r script' ih =>
    cases next with
    | error e =>
      exact Or.inr (Or.inl ⟨lastSubtaskId, JsError.message e, by rw [loginLoop_error]⟩)
    | success resp =>
      cases hsub : resp.subtasks with
      | none => exact Or.inl ⟨lastSubtaskId, by rw [loginLoop_done _ _ _ (Or.inl hsub)]⟩
      | some subs =>
        cases subs with
        | nil => exact Or.inl ⟨lastSubtaskId, by rw [loginLoop_done _ _ _ (Or.inr hsub)]⟩
        | cons s srest =>
          by_cases hm : flowTokenIsMissing resp.flow_token = true
          · exact Or.inr (Or.inr (Or.inl
              (by rw [loginLoop_missing_token _ _ _ s srest hsub hm])))
          · have hm2 : flowTokenIsMissing resp.flow_token = false := by simpa using hm
            by_cases hc : defaultSubtaskHandlerIds.contains s.subtask_id = true
            · by_cases hss : s.subtask_id = "LoginSuccessSubtask"
              · exact Or.inl ⟨some s.subtask_id,
                  by rw [loginLoop_success_subtask _ _ _ s srest hsub hm2 hss]⟩
              · have heq : (loginLoop (r :: script') (FlowTokenResult.success resp)
                      lastSubtaskId).2.2
                    = (loginLoop script' r (some s.subtask_id)).2.2 := by
                  rw [loginLoop_send script' r resp lastSubtaskId s srest hsub hm2 hc hss]
                rw [heq]
                exact ih r (some s.subtask_id)
            · have hc2 : defaultSubtaskHandlerIds.contains s.subtask_id = false := by
                simpa using hc
              exact Or.inr (Or.inr (Or.inr (Or.inl ⟨s.subtask_id,
                by rw [loginLoop_unknown _ _ _ s srest hsub hm2 hc2]⟩)))
